import Mathlib

/-!
Shallow embedding of `GBNHost.py`, the Go-Back-N transport endpoint of the
repository. Python byte strings are `List Nat` (each entry a byte value),
Python ints are `Int`, the side effects on the simulator (`to_layer3`,
`to_layer5`, `start_timer`, `stop_timer`) are recorded as a list of calls,
and a Python exception escaping `receive_from_network_layer` is an
`Except.error`.
-/

/-- The calls a `GBNHost` makes on its simulator, in order of occurrence.
`to_layer3` carries the packet argument, which in the source can be the
value of `self.last_ACK_pkt` and hence `None`. -/
inductive SimCall where
  | to_layer5 (payload : String)
  | to_layer3 (data : Option (List Nat)) (ack_flag : Bool)
  | start_timer (interval : Nat)
  | stop_timer
deriving DecidableEq, Repr

/-- Exceptions that can escape `receive_from_network_layer`: a `struct.error`
from `unpack`, or a `UnicodeDecodeError` from `bytes.decode`. -/
inductive PyError where
  | structError
  | unicodeError
deriving DecidableEq, Repr

/-- The mutable state of `GBNHost.__init__`, minus the simulator and entity
references (external collaborators). -/
structure GBNHost where
  timer_interval : Nat
  window_size : Int
  last_ACKed : Int
  current_seq_number : Int
  app_layer_buffer : List String
  unACKed_buffer : List (Int × List Nat)
  expected_seq_number : Int
  last_ACK_pkt : Option (List Nat)
deriving DecidableEq, Repr

/-- State produced by `GBNHost.__init__(simulator, entity, timer_interval,
window_size)`: `last_ACKed = 0`, `current_seq_number = 1`, empty buffers,
`expected_seq_number = 1`, and `last_ACK_pkt = None`. -/
def GBNHost.init (timer_interval : Nat) (window_size : Int) : GBNHost :=
  { timer_interval := timer_interval
    window_size := window_size
    last_ACKed := 0
    current_seq_number := 1
    app_layer_buffer := []
    unACKed_buffer := []
    expected_seq_number := 1
    last_ACK_pkt := none }

/-- Big-endian value of a byte list. -/
def bytesBE (bs : List Nat) : Nat := bs.foldl (fun a b => a * 256 + b) 0

/-- `struct.pack('!i', v)`: four big-endian bytes of the 32-bit two's
complement representation. -/
def packI (v : Int) : List Nat :=
  let u := (v % 4294967296).toNat
  [u / 16777216 % 256, u / 65536 % 256, u / 256 % 256, u % 256]

/-- `struct.pack('!H', v)`: two big-endian bytes. -/
def packH (v : Nat) : List Nat := [v / 256 % 256, v % 256]

/-- `struct.pack('!?', b)`: one byte, 1 for True and 0 for False. -/
def packBool (b : Bool) : List Nat := [if b then 1 else 0]

/-- `struct.unpack('!i', bs)[0]`: big-endian bytes read back as a signed
32-bit value. -/
def unpackI (bs : List Nat) : Int :=
  if bytesBE bs < 2147483648 then (bytesBE bs : Int) else (bytesBE bs : Int) - 4294967296

/-- `struct.unpack('!H', bs)[0]`. -/
def unpackH (bs : List Nat) : Nat := bytesBE bs

/-- `struct.unpack('!?', bs)[0]`: the byte read back as a boolean. -/
def unpackBool (bs : List Nat) : Bool := bs.headD 0 != 0

/-- UTF-8 bytes of one character, as produced by `str.encode()`. -/
def utf8CharBytes (c : Char) : List Nat :=
  let v := c.toNat
  if v < 128 then [v]
  else if v < 2048 then [192 ||| (v >>> 6), 128 ||| (v &&& 63)]
  else if v < 65536 then
    [224 ||| (v >>> 12), 128 ||| ((v >>> 6) &&& 63), 128 ||| (v &&& 63)]
  else
    [240 ||| (v >>> 18), 128 ||| ((v >>> 12) &&& 63), 128 ||| ((v >>> 6) &&& 63),
      128 ||| (v &&& 63)]

/-- UTF-8 bytes of a character list. -/
def utf8Bytes : List Char → List Nat
  | [] => []
  | c :: cs => utf8CharBytes c ++ utf8Bytes cs

/-- `payload.encode()`: the UTF-8 bytes of the string. -/
def encodeUTF8 (s : String) : List Nat := utf8Bytes s.data

/-- `struct.pack('!%is' % n, b)`: the bytes truncated or zero-padded to
exactly `n` bytes. In the source `n` is `len(payload)`, the code-point
count, while `b` is the UTF-8 encoding, so non-ASCII payloads truncate. -/
def packS (n : Nat) (bs : List Nat) : List Nat :=
  bs.take n ++ List.replicate (n - bs.length) 0

/-- True for a UTF-8 continuation byte. -/
def utf8IsCont (b : Nat) : Bool := 128 ≤ b && b < 192

/-- Strict UTF-8 decoding of a byte list into characters, as performed by
`bytes.decode('utf-8')` in CPython: rejects stray continuation bytes,
overlong encodings, surrogates, and code points above U+10FFFF. -/
def utf8DecodeAux : List Nat → Option (List Char)
  | [] => some []
  | b :: rest =>
    if b < 128 then (utf8DecodeAux rest).map (fun cs => Char.ofNat b :: cs)
    else if b < 194 then none
    else if b < 224 then
      match rest with
      | b2 :: rest2 =>
        if utf8IsCont b2 then
          (utf8DecodeAux rest2).map
            (fun cs => Char.ofNat (((b - 192) <<< 6) + (b2 - 128)) :: cs)
        else none
      | [] => none
    else if b < 240 then
      match rest with
      | b2 :: b3 :: rest3 =>
        if (if b = 224 then decide (160 ≤ b2) && decide (b2 < 192)
            else if b = 237 then decide (128 ≤ b2) && decide (b2 < 160)
            else utf8IsCont b2) && utf8IsCont b3 then
          (utf8DecodeAux rest3).map
            (fun cs =>
              Char.ofNat (((b - 224) <<< 12) + ((b2 - 128) <<< 6) + (b3 - 128)) :: cs)
        else none
      | _ => none
    else if b < 245 then
      match rest with
      | b2 :: b3 :: b4 :: rest4 =>
        if (if b = 240 then decide (144 ≤ b2) && decide (b2 < 192)
            else if b = 244 then decide (128 ≤ b2) && decide (b2 < 144)
            else utf8IsCont b2) && utf8IsCont b3 && utf8IsCont b4 then
          (utf8DecodeAux rest4).map
            (fun cs =>
              Char.ofNat
                (((b - 240) <<< 18) + ((b2 - 128) <<< 12) + ((b3 - 128) <<< 6) +
                  (b4 - 128)) :: cs)
        else none
      | _ => none
    else none

/-- `byte_data.decode('utf-8')`, `none` when CPython raises
`UnicodeDecodeError`. -/
def utf8Decode (bs : List Nat) : Option String :=
  (utf8DecodeAux bs).map (fun cs => String.mk cs)

/-- One loop iteration of `compute_checksum` recomputes
`res = (carry & 0xffff) + (carry >> 16)` from the running sum. -/
def foldOnce (carry : Nat) : Nat := (carry &&& 65535) + (carry >>> 16)

/-- Python `~res & 0xffff` for a non-negative `res`. -/
def pyCmpl (res : Nat) : Nat := (65536 - (res + 1) % 65536) % 65536

/-- The `for i in range(0, len(pkt), 2)` loop of `compute_checksum`: the
accumulator holds the value of the local variable `checksum`, which stays
unbound (`none`) if the loop never runs; a dangling odd byte would make
`pkt[i + 1]` raise, modelled as `none`. -/
def checksum_loop : List Nat → Nat → Option Nat → Option Nat
  | b1 :: b2 :: rest, carry, _ =>
    let carry2 := carry + ((b1 <<< 8) ||| b2)
    checksum_loop rest carry2 (some (pyCmpl (foldOnce carry2)))
  | [_], _, _ => none
  | [], _, acc => acc

/-- The even-padding step of `compute_checksum`: odd-length input gets one
zero byte appended before summing. -/
def pad_even (packet : List Nat) : List Nat :=
  if packet.length % 2 = 0 then packet else packet ++ [0]

/-- `GBNHost.compute_checksum`. Returns `none` exactly when the Python code
raises `UnboundLocalError` (empty input, so the loop never assigns
`checksum`). -/
def compute_checksum (packet : List Nat) : Option Nat :=
  checksum_loop (pad_even packet) 0 none

/-- `GBNHost.create_data_pkt(seq_num, payload)`: header with the checksum
field zeroed, checksum computed over the whole packet, header re-packed with
the real checksum. The `[]` branch is unreachable (the packet always has a
15-byte header, so the checksum is always `some`). -/
def GBNHost.create_data_pkt (self : GBNHost) (seq_num : Int) (payload : String) :
    List Nat :=
  let body := packS payload.length (encodeUTF8 payload)
  let pkt := packI seq_num ++ packI self.last_ACKed ++ packH 0 ++ packBool false ++
    packI (payload.length : Int) ++ body
  match compute_checksum pkt with
  | some checksum =>
    packI seq_num ++ packI self.last_ACKed ++ packH checksum ++ packBool false ++
      packI (payload.length : Int) ++ body
  | none => []

/-- The ACK packet built inline in `receive_from_network_layer`:
`pack('!iiH?i', 0, ack_num, checksum, True, 0)` with the checksum computed
over the zero-checksum packing. The `[]` branch is unreachable. -/
def create_ack_pkt (ack_num : Int) : List Nat :=
  let pkt := packI 0 ++ packI ack_num ++ packH 0 ++ packBool true ++ packI 0
  match compute_checksum pkt with
  | some checksum => packI 0 ++ packI ack_num ++ packH checksum ++ packBool true ++ packI 0
  | none => []

/-- `self.unACKed_buffer[k] = v` on the insertion-ordered Python dict. -/
def dict_set (d : List (Int × List Nat)) (k : Int) (v : List Nat) :
    List (Int × List Nat) :=
  if d.any (fun p => p.1 == k) then d.map (fun p => if p.1 == k then (k, v) else p)
  else d ++ [(k, v)]

/-- `GBNHost.receive_from_application_layer(payload)`: send immediately when
`current_seq_number < last_ACKed + window_size`, starting the timer when
`current_seq_number - last_ACKed == 1`; otherwise append the payload to
`app_layer_buffer`. -/
def GBNHost.receive_from_application_layer (self : GBNHost) (payload : String) :
    GBNHost × List SimCall :=
  if self.current_seq_number < self.last_ACKed + self.window_size then
    let pkt := self.create_data_pkt self.current_seq_number payload
    let timer_calls :=
      if self.current_seq_number - self.last_ACKed = 1 then
        [SimCall.start_timer self.timer_interval]
      else []
    ({ self with
        unACKed_buffer := dict_set self.unACKed_buffer self.current_seq_number pkt
        current_seq_number := self.current_seq_number + 1 },
      SimCall.to_layer3 (some pkt) false :: timer_calls)
  else
    ({ self with app_layer_buffer := self.app_layer_buffer ++ [payload] }, [])

/-- `GBNHost.receive_from_network_layer(byte_data)`. The five header
`unpack` calls collectively raise `struct.error` exactly when fewer than 15
bytes are available; the payload `unpack('!%is' % payload_length, ...)`
raises exactly when the declared length differs from the remaining byte
count (including when it is negative); `payload.decode('utf-8')` can raise
`UnicodeDecodeError`. After decoding: data packets are delivered and ACKed
when `seq_num == expected_seq_number` (the new ACK carries the received
packet's own `ack_num` field) and otherwise answered with `last_ACK_pkt`;
ACK packets with `ack_num > last_ACKed` advance `last_ACKed` by one and
manipulate the timer, all other ACKs are ignored. No checksum is ever
verified. -/
def GBNHost.receive_from_network_layer (self : GBNHost) (byte_data : List Nat) :
    Except PyError (GBNHost × List SimCall) :=
  if byte_data.length < 15 then Except.error PyError.structError
  else
    let seq_num := unpackI (byte_data.take 4)
    let ack_num := unpackI ((byte_data.drop 4).take 4)
    let _checksum_val := unpackH ((byte_data.drop 8).take 2)
    let is_ACK := unpackBool ((byte_data.drop 10).take 1)
    let payload_length := unpackI ((byte_data.drop 11).take 4)
    if payload_length = (byte_data.length : Int) - 15 then
      match utf8Decode (byte_data.drop 15) with
      | none => Except.error PyError.unicodeError
      | some payload =>
        if is_ACK = false then
          if seq_num = self.expected_seq_number then
            let ack_pkt := create_ack_pkt ack_num
            Except.ok
              ({ self with
                  last_ACK_pkt := some ack_pkt
                  expected_seq_number := self.expected_seq_number + 1 },
                [SimCall.to_layer5 payload, SimCall.to_layer3 (some ack_pkt) true])
          else
            Except.ok (self, [SimCall.to_layer3 self.last_ACK_pkt true])
        else if is_ACK = true then
          if self.last_ACKed < ack_num then
            let self2 := { self with last_ACKed := self.last_ACKed + 1 }
            let base := self2.last_ACKed + 1
            if base = self.expected_seq_number then
              Except.ok (self2, [SimCall.stop_timer])
            else
              Except.ok (self2, [SimCall.stop_timer, SimCall.start_timer self.timer_interval])
          else Except.ok (self, [])
        else Except.ok (self, [])
    else Except.error PyError.structError

/-- `GBNHost.timer_interrupt`: the body is `pass`. -/
def GBNHost.timer_interrupt (self : GBNHost) : GBNHost × List SimCall := (self, [])

/-- Concrete form of `Nat.and_pow_two_sub_one_eq_mod` for the 16-bit mask
used throughout the checksum code. -/
theorem nat_and_65535 (n : Nat) : n &&& 65535 = n % 65536 := by
  have h := Nat.and_pow_two_sub_one_eq_mod n 16
  norm_num at h
  exact h

/-- Concrete form of `Nat.shiftRight_eq_div_pow` for the 16-bit shift used
throughout the checksum code. -/
theorem nat_shr16 (n : Nat) : n >>> 16 = n / 65536 := by
  have h := Nat.shiftRight_eq_div_pow n 16
  norm_num at h
  exact h

/-- Modelled from the spec: `(sum & 0xFFFF) + (sum >> 16)` repeated until no
carry remains, as section 4.1 of the specification describes the carry fold. -/
def fold_carries (n : Nat) : Nat :=
  if _h : n < 65536 then n else fold_carries ((n &&& 65535) + (n >>> 16))
termination_by n
decreasing_by
  simp only [nat_and_65535, nat_shr16]
  omega

/-- Modelled from the spec: the sum of the 16-bit big-endian words of a byte
sequence, an odd tail behaving as if padded with one zero byte. -/
def spec_word_sum : List Nat → Nat
  | b1 :: b2 :: rest => (b1 * 256 + b2) + spec_word_sum rest
  | [b] => b * 256
  | [] => 0

/-- Modelled from the spec: the Internet checksum of section 4.1 — word sum,
carries folded until none remain, then the 16-bit one's complement. -/
def internet_checksum_spec (bs : List Nat) : Nat :=
  65535 - fold_carries (spec_word_sum bs)

/-- The word sum written with the source's own operators
(`pkt[i] << 8 | pkt[i + 1]`); an odd tail behaves as if padded with a zero
byte. -/
def sum_words : List Nat → Nat
  | b1 :: b2 :: rest => ((b1 <<< 8) ||| b2) + sum_words rest
  | [b] => (b <<< 8) ||| 0
  | [] => 0

/-- The value `compute_checksum` actually returns on nonempty input: the
complement of the once-folded word sum, the fold applied a single time. -/
def single_fold_checksum (bs : List Nat) : Nat := pyCmpl (foldOnce (sum_words bs))

/-- True exactly on the `to_layer3` simulator calls, the packet emissions. -/
def is_transmission : SimCall → Bool
  | SimCall.to_layer3 _ _ => true
  | _ => false

/-- Whether a call list contains a packet emission. -/
def transmits (calls : List SimCall) : Bool := calls.any is_transmission

/-- Number of packet emissions in a call list. -/
def count_transmissions (calls : List SimCall) : Nat := calls.countP is_transmission

/-- Feed a list of payloads to `receive_from_application_layer` back to back,
collecting all simulator calls. -/
def run_submits (s : GBNHost) (ps : List String) : GBNHost × List SimCall :=
  ps.foldl
    (fun acc p =>
      let r := acc.1.receive_from_application_layer p
      (r.1, acc.2 ++ r.2))
    (s, [])

/-- C3: the claim says `timer_interrupt` retransmits every in-flight packet
and restarts the timer; the source body is `pass`, so for every state —
including any with a non-empty `unACKed_buffer` — it changes nothing,
transmits nothing, and makes no timer call. -/
theorem C3_timer_interrupt_does_nothing (s : GBNHost) :
    GBNHost.timer_interrupt s = (s, []) := rfl

/-- C8: the claim says `last_ACK_pkt` is initialized to an encoded ACK with
acknowledgment number 0; `__init__` sets it to `None`, in particular not to
the encoded ACK-0 packet. -/
theorem C8_last_ack_pkt_initialized_none (ti : Nat) (w : Int) :
    (GBNHost.init ti w).last_ACK_pkt = none ∧
      ¬ (GBNHost.init ti w).last_ACK_pkt = some (create_ack_pkt 0) := by
  exact ⟨rfl, by simp [GBNHost.init]⟩

/-- C10: every inbound byte sequence shorter than 15 bytes, or whose
declared payload length field (bytes 11 through 14) differs from the input
length minus 15, makes `receive_from_network_layer` raise a `struct.error`
from `unpack` before any state change or simulator call. -/
theorem C10_malformed_input_raises (s : GBNHost) (b : List Nat)
    (h : b.length < 15 ∨ ¬ unpackI ((b.drop 11).take 4) = (b.length : Int) - 15) :
    s.receive_from_network_layer b = Except.error PyError.structError := by
  unfold GBNHost.receive_from_network_layer
  rcases h with h | h
  · simp [h]
  · by_cases hl : b.length < 15
    · simp [hl]
    · simp [hl, h]

/-- Witness for C10 at the concrete one-byte input `[0]`. -/
theorem C10_malformed_input_raises_witness :
    (GBNHost.init 10 4).receive_from_network_layer [0] =
      Except.error PyError.structError :=
  C10_malformed_input_raises (GBNHost.init 10 4) [0] (Or.inl (by decide))

/-- C9: a received packet that parses as an ACK whose acknowledgment number
does not exceed `last_ACKed` (duplicate or stale) leaves the whole state
unchanged and produces no simulator calls, in particular no timer calls. -/
theorem C9_stale_ack_ignored (s : GBNHost) (b : List Nat) (pl : String)
    (hlen : 15 ≤ b.length)
    (hpl : unpackI ((b.drop 11).take 4) = (b.length : Int) - 15)
    (hdec : utf8Decode (b.drop 15) = some pl)
    (hack : unpackBool ((b.drop 10).take 1) = true)
    (hstale : ¬ s.last_ACKed < unpackI ((b.drop 4).take 4)) :
    s.receive_from_network_layer b = Except.ok (s, []) := by
  unfold GBNHost.receive_from_network_layer
  simp [Nat.not_lt.mpr hlen, hpl, hdec, hack, hstale]

/-- Witness for C9: a host with `last_ACKed = 5` receiving the encoded ACK
for sequence number 3. -/
theorem C9_stale_ack_ignored_witness :
    GBNHost.receive_from_network_layer
        { GBNHost.init 10 4 with last_ACKed := 5 } (create_ack_pkt 3) =
      Except.ok ({ GBNHost.init 10 4 with last_ACKed := 5 }, []) :=
  C9_stale_ack_ignored { GBNHost.init 10 4 with last_ACKed := 5 } (create_ack_pkt 3)
    "" (by decide) (by decide) (by decide) (by decide) (by decide)

/-- The word sum 131071 needs two carry folds: the first leaves exactly
65536, which still carries. -/
theorem fold_carries_131071 : fold_carries 131071 = 1 := by
  have e1 : fold_carries 131071 = fold_carries 65536 := by
    rw [fold_carries.eq_def]
    simp [nat_and_65535, nat_shr16]
  have e2 : fold_carries 65536 = fold_carries 1 := by
    rw [fold_carries.eq_def]
    simp [nat_and_65535, nat_shr16]
  have e3 : fold_carries 1 = 1 := by
    rw [fold_carries.eq_def]
    simp
  rw [e1, e2, e3]

/-- Specified word sum of the six bytes ff ff ff ff 00 01. -/
theorem word_sum_c5_bytes : spec_word_sum [255,255,255,255,0,1] = 131071 := by
  simp [spec_word_sum]

/-- Specified Internet checksum of the six bytes ff ff ff ff 00 01. -/
theorem spec_checksum_c5_bytes : internet_checksum_spec [255,255,255,255,0,1] = 65534 := by
  rw [internet_checksum_spec.eq_def, word_sum_c5_bytes, fold_carries_131071]

/-- C5 counterexample: on the byte sequence ff ff ff ff 00 01 the code
returns 65535 while the specified checksum (carries folded until none
remain) is 65534 — the code folds only once, so the second carry out of
`(sum & 0xffff) + (sum >> 16)` is lost. -/
theorem C5_counterexample :
    compute_checksum [255,255,255,255,0,1] = some 65535 ∧
    internet_checksum_spec [255,255,255,255,0,1] = 65534 ∧
    ¬ compute_checksum [255,255,255,255,0,1] =
        some (internet_checksum_spec [255,255,255,255,0,1]) := by
  refine ⟨rfl, spec_checksum_c5_bytes, ?_⟩
  rw [spec_checksum_c5_bytes]
  decide

/-- The receiver state used to exhibit C1: one ACK (for 5) already recorded
as `last_ACK_pkt`, next expected sequence number 1. -/
def c1_host : GBNHost :=
  { GBNHost.init 10 4 with last_ACK_pkt := some (create_ack_pkt 5) }

/-- The C1 failing input: the valid data packet (seq 1, ack 0, payload "a",
checksum bytes 254 157) with its checksum field corrupted to 254 158. -/
def c1_corrupt_pkt : List Nat := [0,0,0,1, 0,0,0,0, 254,158, 0, 0,0,0,1, 97]

/-- Specified word sum of the C1 packet with a zeroed checksum field. -/
theorem word_sum_c1_bytes : spec_word_sum [0,0,0,1, 0,0,0,0, 0,0, 0, 0,0,0,1, 97] = 354 := by
  simp [spec_word_sum]

/-- A word sum of 354 needs no carry fold. -/
theorem fold_carries_354 : fold_carries 354 = 354 := by
  rw [fold_carries.eq_def]
  simp

/-- Specified Internet checksum of the C1 packet with a zeroed checksum
field. -/
theorem spec_checksum_c1_bytes :
    internet_checksum_spec [0,0,0,1, 0,0,0,0, 0,0, 0, 0,0,0,1, 97] = 65181 := by
  rw [internet_checksum_spec.eq_def, word_sum_c1_bytes, fold_carries_354]

/-- C1: decode of `c1_corrupt_pkt` fails per the specification — the
checksum recomputed over the packet with a zeroed checksum field is 65181
while the transmitted field holds 65182 — so the claim requires one
retransmission of the stored last ACK and no application delivery; the code
never verifies the checksum, delivers the corrupted payload "a" to the
application, and emits a freshly built ACK that replaces `last_ACK_pkt`. -/
theorem C1_code_behavior_on_corrupt_packet :
    internet_checksum_spec [0,0,0,1, 0,0,0,0, 0,0, 0, 0,0,0,1, 97] = 65181 ∧
    unpackH ((c1_corrupt_pkt.drop 8).take 2) = 65182 ∧
    c1_host.receive_from_network_layer c1_corrupt_pkt =
      Except.ok
        ({ c1_host with
            last_ACK_pkt := some (create_ack_pkt 0)
            expected_seq_number := 2 },
          [SimCall.to_layer5 "a", SimCall.to_layer3 (some (create_ack_pkt 0)) true]) :=
  ⟨spec_checksum_c1_bytes, rfl, rfl⟩

/-- The sender state used to exhibit C2: packets 1 and 2 in flight, payload
"e" waiting in the application-layer buffer. -/
def c2_host : GBNHost :=
  { GBNHost.init 10 4 with
      current_seq_number := 3
      app_layer_buffer := ["e"]
      unACKed_buffer :=
        [(1, (GBNHost.init 10 4).create_data_pkt 1 "a"),
          (2, (GBNHost.init 10 4).create_data_pkt 2 "b")] }

/-- C2: on the cumulative ACK for sequence number 2 the claim requires
`base` to advance to 3 (both in-flight entries removed) and the pending
payload "e" to be drained and sent; the code only increments `last_ACKed`
from 0 to 1, leaves `unACKed_buffer` and `app_layer_buffer` untouched,
transmits nothing, and just restarts the timer. -/
theorem C2_code_behavior_on_cumulative_ack :
    c2_host.receive_from_network_layer (create_ack_pkt 2) =
      Except.ok ({ c2_host with last_ACKed := 1 },
        [SimCall.stop_timer, SimCall.start_timer 10]) := rfl

/-- C4 counterexample: on a fresh endpoint with window size 4, the five
back-to-back submissions "a" … "e" produce only three transmissions
(sequence numbers 1–3) — not four — and leave both "d" and "e" buffered,
because the guard `current_seq_number < last_ACKed + window_size` admits
one packet fewer than `next_seq - base < window_size` with
`base = last_ACKed + 1`. -/
theorem C4_counterexample :
    count_transmissions (run_submits (GBNHost.init 10 4) ["a","b","c","d","e"]).2 = 3 ∧
    ¬ count_transmissions (run_submits (GBNHost.init 10 4) ["a","b","c","d","e"]).2 = 4 ∧
    (run_submits (GBNHost.init 10 4) ["a","b","c","d","e"]).1.app_layer_buffer = ["d","e"] ∧
    ¬ (run_submits (GBNHost.init 10 4) ["a","b","c","d","e"]).1.app_layer_buffer = ["e"] := by
  refine ⟨rfl, by decide, rfl, by decide⟩

/-- C4 amended: `receive_from_application_layer` encodes and transmits a
packet immediately if and only if `current_seq_number < last_ACKed +
window_size` (one slot stricter than the claim's `next_seq − base <
window_size` with `base = last_ACKed + 1`); consequently a fresh endpoint
with window size 4 transmits exactly three of five back-to-back submissions
and buffers the remaining two. -/
theorem C4_amended_window_check :
    (∀ (s : GBNHost) (p : String),
        transmits (s.receive_from_application_layer p).2 = true ↔
          s.current_seq_number < s.last_ACKed + s.window_size) ∧
    count_transmissions (run_submits (GBNHost.init 10 4) ["a","b","c","d","e"]).2 = 3 ∧
    (run_submits (GBNHost.init 10 4) ["a","b","c","d","e"]).1.app_layer_buffer = ["d","e"] := by
  refine ⟨?_, rfl, rfl⟩
  intro s p
  by_cases h : s.current_seq_number < s.last_ACKed + s.window_size
  · simp [GBNHost.receive_from_application_layer, h, transmits, is_transmission]
  · simp [GBNHost.receive_from_application_layer, h, transmits]

/-- The inbound data packet used for C6: sequence number 1 (the expected
one), but with the piggybacked acknowledgment field holding 7. -/
def c6_pkt : List Nat :=
  ({ GBNHost.init 10 4 with last_ACKed := 7 } : GBNHost).create_data_pkt 1 "a"

/-- C6 counterexample: delivering `c6_pkt` (sequence number 1, equal to
`expected_seq_number`) makes the receiver transmit an ACK whose
acknowledgment field holds 7 — the received packet's own acknowledgment
field — not the packet's sequence number 1 as the claim states. -/
theorem C6_counterexample :
    unpackI (c6_pkt.take 4) = 1 ∧
    (GBNHost.init 10 4).receive_from_network_layer c6_pkt =
      Except.ok
        ({ GBNHost.init 10 4 with
            last_ACK_pkt := some (create_ack_pkt 7)
            expected_seq_number := 2 },
          [SimCall.to_layer5 "a", SimCall.to_layer3 (some (create_ack_pkt 7)) true]) ∧
    unpackI (((create_ack_pkt 7).drop 4).take 4) = 7 ∧
    ¬ (7 : Int) = 1 := by
  refine ⟨rfl, rfl, rfl, by decide⟩

/-- C6 amended: for every successfully decoded in-order data packet the
receiver delivers the payload exactly once, builds a new ACK whose
acknowledgment number equals the received packet's own acknowledgment
field (the sender's piggybacked value, not the sequence number), stores it
as `last_ACK_pkt`, transmits it, and increments `expected_seq_number`. -/
theorem C6_amended_ack_number (s : GBNHost) (b : List Nat) (pl : String)
    (hlen : 15 ≤ b.length)
    (hpl : unpackI ((b.drop 11).take 4) = (b.length : Int) - 15)
    (hdec : utf8Decode (b.drop 15) = some pl)
    (hdata : unpackBool ((b.drop 10).take 1) = false)
    (hseq : unpackI (b.take 4) = s.expected_seq_number) :
    s.receive_from_network_layer b =
      Except.ok
        ({ s with
            last_ACK_pkt := some (create_ack_pkt (unpackI ((b.drop 4).take 4)))
            expected_seq_number := s.expected_seq_number + 1 },
          [SimCall.to_layer5 pl,
            SimCall.to_layer3 (some (create_ack_pkt (unpackI ((b.drop 4).take 4)))) true]) := by
  unfold GBNHost.receive_from_network_layer
  simp [Nat.not_lt.mpr hlen, hpl, hdec, hdata, hseq]

/-- Witness for C6 amended at the packet `c6_pkt` on a fresh endpoint. -/
theorem C6_amended_ack_number_witness :
    (GBNHost.init 10 4).receive_from_network_layer c6_pkt =
      Except.ok
        ({ GBNHost.init 10 4 with
            last_ACK_pkt := some (create_ack_pkt (unpackI ((c6_pkt.drop 4).take 4)))
            expected_seq_number := (GBNHost.init 10 4).expected_seq_number + 1 },
          [SimCall.to_layer5 "a",
            SimCall.to_layer3 (some (create_ack_pkt (unpackI ((c6_pkt.drop 4).take 4)))) true]) :=
  C6_amended_ack_number (GBNHost.init 10 4) c6_pkt "a" (by decide) (by decide)
    (by decide) (by decide) (by decide)

/-- The sender state used for C7: one packet (seq 1) outstanding, so after
accepting the ACK for 1 the new base 2 equals `current_seq_number`, and the
claim requires the timer to be disarmed without restart. -/
def c7_host : GBNHost :=
  { GBNHost.init 10 4 with
      current_seq_number := 2
      unACKed_buffer := [(1, (GBNHost.init 10 4).create_data_pkt 1 "x")] }

/-- C7 counterexample: in `c7_host`, after accepting the ACK for sequence
number 1, base (2) equals `current_seq_number` (2) — nothing outstanding —
so the claim requires a bare stop; the code compares base against
`expected_seq_number` (1) instead and therefore stops and immediately
restarts the timer. -/
theorem C7_counterexample :
    c7_host.last_ACKed + 1 + 1 = c7_host.current_seq_number ∧
    c7_host.receive_from_network_layer (create_ack_pkt 1) =
      Except.ok ({ c7_host with last_ACKed := 1 },
        [SimCall.stop_timer, SimCall.start_timer 10]) ∧
    ¬ ([SimCall.stop_timer, SimCall.start_timer 10] = ([SimCall.stop_timer] : List SimCall)) := by
  refine ⟨rfl, rfl, by decide⟩

/-- C7 amended: after accepting an ACK that indicates progress the sender
always stops the timer, leaving it disarmed if and only if the new base
(`last_ACKed + 1` after the one-slot advance) equals the receiver-side
`expected_seq_number`, and otherwise restarting it for `timer_interval` —
the comparison is against `expected_seq_number`, not `next_seq`. -/
theorem C7_amended_timer_restart (s : GBNHost) (b : List Nat) (pl : String)
    (hlen : 15 ≤ b.length)
    (hpl : unpackI ((b.drop 11).take 4) = (b.length : Int) - 15)
    (hdec : utf8Decode (b.drop 15) = some pl)
    (hack : unpackBool ((b.drop 10).take 1) = true)
    (hprog : s.last_ACKed < unpackI ((b.drop 4).take 4)) :
    s.receive_from_network_layer b =
      Except.ok ({ s with last_ACKed := s.last_ACKed + 1 },
        if s.last_ACKed + 1 + 1 = s.expected_seq_number then [SimCall.stop_timer]
        else [SimCall.stop_timer, SimCall.start_timer s.timer_interval]) := by
  unfold GBNHost.receive_from_network_layer
  simp [Nat.not_lt.mpr hlen, hpl, hdec, hack, hprog]
  split
  · simp
  · simp

/-- Witness for C7 amended: `c7_host` accepting the ACK for sequence
number 1. -/
theorem C7_amended_timer_restart_witness :
    c7_host.receive_from_network_layer (create_ack_pkt 1) =
      Except.ok ({ c7_host with last_ACKed := c7_host.last_ACKed + 1 },
        if c7_host.last_ACKed + 1 + 1 = c7_host.expected_seq_number then [SimCall.stop_timer]
        else [SimCall.stop_timer, SimCall.start_timer c7_host.timer_interval]) :=
  C7_amended_timer_restart c7_host (create_ack_pkt 1) "" (by decide) (by decide)
    (by decide) (by decide) (by decide)

/-- Induction on a list two elements at a time, matching the word structure
of the checksum loop. -/
theorem list_pair_induction (P : List Nat → Prop) (h0 : P []) (h1 : ∀ b, P [b])
    (h2 : ∀ b1 b2 rest, P rest → P (b1 :: b2 :: rest)) : ∀ l, P l := by
  have key : ∀ n (l : List Nat), l.length ≤ n → P l := by
    intro n
    induction n with
    | zero =>
      intro l hl
      cases l with
      | nil => exact h0
      | cons a t => simp at hl
    | succ n ih =>
      intro l hl
      match l with
      | [] => exact h0
      | [b] => exact h1 b
      | b1 :: b2 :: rest =>
        refine h2 b1 b2 rest (ih rest ?_)
        simp at hl
        omega
  intro l
  exact key l.length l le_rfl

/-- Padding distributes over a leading word. -/
theorem pad_even_cons2 (b1 b2 : Nat) (l : List Nat) :
    pad_even (b1 :: b2 :: l) = b1 :: b2 :: pad_even l := by
  simp only [pad_even, List.length_cons]
  by_cases h : l.length % 2 = 0
  · have h2 : (l.length + 1 + 1) % 2 = 0 := by omega
    simp [h, h2]
  · have h2 : ¬ (l.length + 1 + 1) % 2 = 0 := by omega
    simp [h, h2]

/-- The word sum is unchanged by the even padding, since `sum_words` already
treats a dangling byte as the high half of a word. -/
theorem sum_words_pad (l : List Nat) : sum_words (pad_even l) = sum_words l := by
  induction l using list_pair_induction with
  | h0 => rfl
  | h1 b => rfl
  | h2 b1 b2 rest ih =>
    rw [pad_even_cons2]
    simp only [sum_words]
    rw [ih]

/-- On an even-length, nonempty list the checksum loop returns the
complement of the once-folded total word sum, whatever accumulator it
starts from. -/
theorem checksum_loop_eq :
    ∀ l : List Nat, ∀ carry acc, l.length % 2 = 0 → l ≠ [] →
      checksum_loop l carry acc = some (pyCmpl (foldOnce (carry + sum_words l))) := by
  have key : ∀ l : List Nat,
      (∀ carry acc, l.length % 2 = 0 → l ≠ [] →
        checksum_loop l carry acc = some (pyCmpl (foldOnce (carry + sum_words l)))) := by
    refine list_pair_induction _ ?_ ?_ ?_
    · intro carry acc _ hne
      exact absurd rfl hne
    · intro b carry acc heven _
      simp at heven
    · intro b1 b2 rest ih carry acc heven _
      cases rest with
      | nil =>
        simp [checksum_loop, sum_words]
      | cons r t =>
        have heven2 : (r :: t).length % 2 = 0 := by
          simp only [List.length_cons] at heven ⊢
          omega
        simp only [checksum_loop]
        rw [ih _ _ heven2 (by simp)]
        simp only [sum_words]
        rw [Nat.add_assoc]
  intro l carry acc heven hne
  exact key l carry acc heven hne

/-- Even padding yields an even length. -/
theorem pad_even_length (l : List Nat) : (pad_even l).length % 2 = 0 := by
  unfold pad_even
  split
  · assumption
  · simp
    omega

/-- Even padding never empties a nonempty list. -/
theorem pad_even_ne_nil (l : List Nat) (h : l ≠ []) : pad_even l ≠ [] := by
  unfold pad_even
  split
  · exact h
  · simp

/-- C5 amended: `compute_checksum` sums the 16-bit big-endian words (odd
input padded with one zero byte) and returns `~res & 0xffff` for
`res = (sum & 0xffff) + (sum >> 16)` — the carry fold is applied exactly
once, so a second carry out of `res` is not folded back in; and on the
empty byte sequence the function raises (its `checksum` variable is never
assigned) instead of returning a value. -/
theorem C5_amended_single_fold :
    (∀ bs : List Nat, bs ≠ [] →
        compute_checksum bs = some (single_fold_checksum bs)) ∧
    compute_checksum [] = none := by
  constructor
  · intro bs hne
    unfold compute_checksum
    rw [checksum_loop_eq (pad_even bs) 0 none (pad_even_length bs) (pad_even_ne_nil bs hne)]
    rw [sum_words_pad]
    simp [single_fold_checksum]
  · rfl

/-- Witness for C5 amended at the two-byte input 00 01. -/
theorem C5_amended_single_fold_witness :
    compute_checksum [0, 1] = some (single_fold_checksum [0, 1]) :=
  C5_amended_single_fold.1 [0, 1] (by decide)
